import Mathlib

/-!
Shallow embedding of the rip_validator conformance engine
(column-name identifier checks, filter/instrument name check,
schema consistency checker and interval containment utility),
together with theorems about threshold ordering, scan order,
reconciliation coverage and range containment.

Python semantics conventions used throughout:
* Python strings are Lean `String`/`List Char` (ASCII is all the
  vocabularies and names use).
* `s.replace(a, "")` is `pyRemove` (left-to-right, non-overlapping).
* `a in s` (substring test) is `List.isInfixOf` on `.data`.
* `s.split("_")` / `s.lower()` etc. are `pySplitU` / `pyLower` etc.
  (list-level implementations of the Python semantics).
* `s.islower()` / `s.isalnum()` are `pyIsLower` / `pyIsAlnum`.
* code that can raise (string indexing, missing dict/column keys)
  returns an `Option`, `none` standing for the raised exception.
* `thefuzz.fuzz.ratio` is an external library; it is passed in as an
  abstract similarity function `sim : String → String → Nat`.
* the vocabulary lists (filters, exceptions, protected words) are
  loaded from external yaml resources; they are passed as parameters.
-/

namespace RipValidator

/-- Tri-state outcome, from status.py `State`. -/
inductive State where
  | PASS
  | FAIL
  | WARNING
deriving DecidableEq, Repr

/-- Status value, from status.py `Status` (state plus optional message). -/
structure Status where
  state : State
  message : Option String := none
deriving DecidableEq, Repr

/-- Filter/instrument vocabulary entry, from config.py `FilterName`.
The derived `inverse_name` of `__post_init__` is the function
`inverse_name` below. -/
structure FilterName where
  name : String
  secondary_ucd : String
deriving DecidableEq, Repr

/-- Case-sensitive exception vocabulary entry, from config.py `ExceptionWord`. -/
structure ExceptionWord where
  name : String
  ucd : String
  unit : String
deriving DecidableEq, Repr

/-- Protected vocabulary entry, from config.py `ProtectedWord`. -/
structure ProtectedWord where
  name : String
  common_representations : List String
  ucd : String
  unit : String
deriving DecidableEq, Repr

/-- From config.py `MAX_COLUMN_LENGTH`. -/
def MAX_COLUMN_LENGTH : Nat := 50

/-- From config.py `WARN_COLUMN_LENGTH`. -/
def WARN_COLUMN_LENGTH : Nat := 30

/-- From column_name_validator.py `NOT_ALLOWED`. -/
def NOT_ALLOWED : List String :=
  ["fred", "bob", "thing", "something", "whatever", "words",
   "blahblahblah", "abc123", "xyz"]

/-! ### Python string helpers -/

/-- One step of Python `str.replace(old, "")` for a non-empty pattern
`p :: ps`: scan left to right, removing non-overlapping occurrences.
The extra `fuel` argument (instantiated with the list length, an upper
bound on the number of scan steps) only makes the recursion structural;
the fuel never runs out. -/
def pyRemoveAux (p : Char) (ps : List Char) : Nat → List Char → List Char
  | _, [] => []
  | 0, l => l
  | fuel + 1, c :: rest =>
    if (p :: ps).isPrefixOf (c :: rest) then
      pyRemoveAux p ps fuel (List.drop ps.length rest)
    else
      c :: pyRemoveAux p ps fuel rest

/-- Python `str.replace(pat, "")` on char lists (with replacement `""`,
an empty pattern leaves the string unchanged, as in Python). -/
def pyRemove (pat l : List Char) : List Char :=
  match pat with
  | [] => l
  | p :: ps => pyRemoveAux p ps l.length l

/-- Python `name.replace("_", "")`. -/
def stripUnderscores (s : String) : String :=
  String.mk (pyRemove ['_'] s.data)

/-- Python `str.islower()`: at least one cased character and no
uppercase character (ASCII reading). -/
def pyIsLower (s : String) : Bool :=
  s.data.any (fun c => c.isLower) && !(s.data.any (fun c => c.isUpper))

/-- Python `str.isalnum()`: non-empty and every character a letter or
digit (ASCII reading). -/
def pyIsAlnum (s : String) : Bool :=
  !s.data.isEmpty && s.data.all (fun c => c.isAlpha || c.isDigit)

/-- Contiguous-sublist (substring) test on char lists. -/
def infixCheck (pat : List Char) : List Char → Bool
  | [] => pat.isEmpty
  | c :: rest => pat.isPrefixOf (c :: rest) || infixCheck pat rest

/-- Python `a in s` substring test. -/
def pyIn (a s : String) : Bool :=
  infixCheck a.data s.data

/-- Python `s.lower()` (ASCII reading). -/
def pyLower (s : String) : String :=
  String.mk (s.data.map Char.toLower)

/-- Python `s.split(sep)` for a one-character separator, on char lists. -/
def pySplit (sep : Char) : List Char → List (List Char)
  | [] => [[]]
  | c :: rest =>
    match pySplit sep rest with
    | [] => []
    | w :: ws => if c = sep then [] :: w :: ws else (c :: w) :: ws

/-- Python `s.split("_")`. -/
def pySplitU (s : String) : List String :=
  (pySplit '_' s.data).map String.mk

/-- Python `"_".join(ws)`. -/
def pyJoinU (ws : List String) : String :=
  String.mk (List.intercalate ['_'] (ws.map String.data))

/-- Python `s.startswith(pat)`. -/
def pyStartsWith (pat s : String) : Bool :=
  pat.data.isPrefixOf s.data

/-- Python `s.endswith(pat)`. -/
def pyEndsWith (pat s : String) : Bool :=
  pat.data.reverse.isPrefixOf s.data.reverse

/-- From config.py `FilterName.__post_init__`:
`"_".join(self.name.split("_")[::-1])`. -/
def inverse_name (n : String) : String :=
  pyJoinU (pySplitU n).reverse

/-! ### Identifier rule evaluator (column_name_validator.py) -/

/-- From column_name_validator.py `check_length`. -/
def check_length (name : String) : Status :=
  let name_length := name.length
  if name_length ≤ WARN_COLUMN_LENGTH then ⟨State.PASS, none⟩
  else if name_length > MAX_COLUMN_LENGTH then ⟨State.FAIL, none⟩
  else ⟨State.WARNING, none⟩

/-- From column_name_validator.py `check_decimals`. -/
def check_decimals (name : String) : Status :=
  if !(pyIn "." name) then ⟨State.PASS, none⟩
  else ⟨State.FAIL, none⟩

/-- Inner token loop of the fuzzy stage of `check_allowed`:
for one banned word `na`, scan the `_`-split tokens of `name`;
`some` is the early `return`, `none` means fall through. -/
def bannedTokenScan (sim : String → String → Nat) (name na : String) :
    List String → Option Status
  | [] => none
  | w :: ws =>
    if sim na (pyLower w) > 80 then
      some ⟨State.FAIL, some (name ++ " contains banned word: " ++ na)⟩
    else if sim na (pyLower w) > 60 then
      some ⟨State.WARNING, some (name ++ " contains possible banned word: " ++ na)⟩
    else bannedTokenScan sim name na ws

/-- Outer loop of the fuzzy stage of `check_allowed` over the banned
word list. -/
def bannedFuzzyScan (sim : String → String → Nat) (name : String) :
    List String → Status
  | [] => ⟨State.PASS, none⟩
  | na :: nas =>
    match bannedTokenScan sim name na (pySplitU name) with
    | some s => s
    | none => bannedFuzzyScan sim name nas

/-- From column_name_validator.py `check_allowed`: exact substring scan over
`NOT_ALLOWED`, then the per-token fuzzy scan with thresholds 80/60. -/
def check_allowed (sim : String → String → Nat) (name : String) : Status :=
  match NOT_ALLOWED.find? (fun na => pyIn na name) with
  | some na => ⟨State.FAIL, some na⟩
  | none => bannedFuzzyScan sim name NOT_ALLOWED

/-- Inner representation loop of `check_protected`: for one protected
word, scan its representations in order; whole-name equality gives
Fail, else a case-insensitive token match gives Warning. -/
def protectedReprScan (pwname name : String) : List String → Option Status
  | [] => none
  | w :: ws =>
    if w = name then some ⟨State.FAIL, some pwname⟩
    else if (pySplitU name).any (fun t => pyLower w == pyLower t) then
      some ⟨State.WARNING, some pwname⟩
    else protectedReprScan pwname name ws

/-- From column_name_validator.py `check_protected`. -/
def check_protected (pws : List ProtectedWord) (name : String) : Status :=
  match pws with
  | [] => ⟨State.PASS, none⟩
  | pw :: rest =>
    match protectedReprScan pw.name name pw.common_representations with
    | some s => s
    | none => check_protected rest name

/-- Loop body of `check_exceptions` over the exception list, with the
underscore-stripped `real_string` precomputed. -/
def exceptionScan (real_string : String) : List ExceptionWord → Status
  | [] => ⟨State.PASS, none⟩
  | exc :: rest =>
    if pyIn (pyLower exc.name) (pyLower real_string) then
      if pyIn exc.name real_string then ⟨State.PASS, none⟩
      else ⟨State.FAIL, some exc.name⟩
    else exceptionScan real_string rest

/-- From column_name_validator.py `check_exceptions`. -/
def check_exceptions (excs : List ExceptionWord) (name : String) : Status :=
  exceptionScan (stripUnderscores name) excs

/-- From column_name_validator.py `check_alphanumeric`. -/
def check_alphanumeric (name : String) : Status :=
  if pyIsAlnum (stripUnderscores name) then ⟨State.PASS, none⟩
  else ⟨State.FAIL, none⟩

/-- From column_name_validator.py `check_alphabetical_start`:
`name[0].isalpha()`; indexing an empty string raises IndexError,
modelled as `none`. -/
def check_alphabetical_start (name : String) : Option Status :=
  match name.data with
  | [] => none
  | c :: _ => some (if c.isAlpha then ⟨State.PASS, none⟩ else ⟨State.FAIL, none⟩)

/-- Truthiness of a Python `Status` dataclass instance: a dataclass
without `__bool__`/`__len__` is always truthy. `check_snake_case`
branches on `not check_alphanumeric(...)`, which is therefore always
`False`. -/
def statusTruthy (_ : Status) : Bool := true

/-- From column_name_validator.py `check_snake_case`. -/
def check_snake_case (filter_words : List FilterName)
    (exceptions : List ExceptionWord) (name : String) : Status :=
  if pyStartsWith "_" name then ⟨State.FAIL, some "Starts with underscore."⟩
  else if pyEndsWith "_" name then ⟨State.FAIL, some "Ends with underscore."⟩
  else if pyIn "__" name then ⟨State.FAIL, some "Multiple underscores in a row."⟩
  else
    let afterFilters := filter_words.foldl
      (fun s f => String.mk (pyRemove f.name.data s.data)) name
    let actual_string := exceptions.foldl
      (fun s e => String.mk (pyRemove e.name.data s.data)) afterFilters
    if actual_string = "" then ⟨State.PASS, none⟩
    else if pyIsLower actual_string then
      -- Python: `if not check_alphanumeric(actual_string): return FAIL`
      if !(statusTruthy (check_alphanumeric actual_string)) then ⟨State.FAIL, none⟩
      else ⟨State.PASS, none⟩
    else ⟨State.FAIL, none⟩

/-! ### Filter/instrument name check (filter_check.py) -/

/-- From filter_check.py `WARNING_TOLERANCE_RATIO`. -/
def warningTolerance : Nat := 70

/-- From filter_check.py `FAIL_TOLERANCE_RATIO`. -/
def failTolerance : Nat := 80

/-- From filter_check.py `filter_name.name.replace("_", "").lower()`. -/
def stripLower (s : String) : String :=
  pyLower (stripUnderscores s)

/-- The final fuzzy loop of filter_check.py `check_filter`, kept in the
branch order of the source: the comparison against the Warning
threshold 70 is made before the one against the Fail threshold 80. -/
def filterFuzzyScan (sim : String → String → Nat) (simplified : String) :
    List FilterName → Status
  | [] => ⟨State.PASS, none⟩
  | f :: fs =>
    let r := sim (stripLower f.name) simplified
    let ri := sim (stripLower (inverse_name f.name)) simplified
    if r > warningTolerance || ri > warningTolerance then
      ⟨State.WARNING, some f.name⟩
    else if r > failTolerance || ri > failTolerance then
      ⟨State.FAIL, some f.name⟩
    else filterFuzzyScan sim simplified fs

/-- From filter_check.py `check_filter`: exact containment short-circuit,
wrong-case stage, reversed-form stage, then the fuzzy stage. -/
def check_filter (filter_words : List FilterName)
    (sim : String → String → Nat) (name : String) : Status :=
  match filter_words.find? (fun f => pyIn f.name name) with
  | some _ => ⟨State.PASS, none⟩
  | none =>
    let simplified := stripUnderscores (pyLower name)
    match filter_words.find?
        (fun f => pyIn (stripLower f.name) simplified && !(pyIn f.name name)) with
    | some f => ⟨State.FAIL, some f.name⟩
    | none =>
      match filter_words.find?
          (fun f => pyIn (stripLower (inverse_name f.name)) simplified) with
      | some f => ⟨State.FAIL, some f.name⟩
      | none => filterFuzzyScan sim simplified filter_words

/-! ### Per-column report (column_name_validator.py) -/

/-- From column_name_validator.py `ColumnNameReport` (the nine per-rule
statuses; the derived `valid` flag is `ColumnNameReport.valid`). -/
structure ColumnNameReport where
  column_name : String
  alpha_numeric : Status
  starts_with_letter : Status
  snake_case : Status
  length : Status
  no_decimals : Status
  filter_name : Status
  allowed_words : Status
  no_exception_violation : Status
  not_protected : Status
deriving DecidableEq, Repr

/-- Python `ColumnNameReport.__post_init__`: valid iff every rule state is PASS. -/
def ColumnNameReport.valid (r : ColumnNameReport) : Bool :=
  r.alpha_numeric.state == State.PASS
  && r.starts_with_letter.state == State.PASS
  && r.snake_case.state == State.PASS
  && r.length.state == State.PASS
  && r.no_decimals.state == State.PASS
  && r.filter_name.state == State.PASS
  && r.allowed_words.state == State.PASS
  && r.no_exception_violation.state == State.PASS
  && r.not_protected.state == State.PASS

/-- From column_name_validator.py `validate_column_name`. The checks run in
source order; `check_alphabetical_start` raises on the empty name, so
the whole call is `none` in that case. -/
def validate_column_name (filter_words : List FilterName)
    (exceptions : List ExceptionWord) (protected_words : List ProtectedWord)
    (sim : String → String → Nat) (name : String) : Option ColumnNameReport :=
  let alphanumeric := check_alphanumeric name
  match check_alphabetical_start name with
  | none => none
  | some letter_start =>
    some
      { column_name := name
        alpha_numeric := alphanumeric
        starts_with_letter := letter_start
        snake_case := check_snake_case filter_words exceptions name
        length := check_length name
        no_decimals := check_decimals name
        filter_name := check_filter filter_words sim name
        allowed_words := check_allowed sim name
        no_exception_violation := check_exceptions exceptions name
        not_protected := check_protected protected_words name }

/-! ### Interval containment and schema consistency
(helper_validator_methods.py, data_and_metadata_validator.py,
data_validator.py) -/

/-- From data_types.py `ClosedInterval`: which ends of `(min, max)` are
included. -/
inductive ClosedInterval where
  | left
  | right
  | both
  | none
deriving DecidableEq, Repr

/-- Containment of one value, following the closure semantics that
data_types.py documents and polars `is_between` implements:
left `[a, b)`, right `(a, b]`, both `[a, b]`, none `(a, b)`. -/
def isBetween (v a b : ℚ) : ClosedInterval → Bool
  | ClosedInterval.left => decide (a ≤ v) && decide (v < b)
  | ClosedInterval.right => decide (a < v) && decide (v ≤ b)
  | ClosedInterval.both => decide (a ≤ v) && decide (v ≤ b)
  | ClosedInterval.none => decide (a < v) && decide (v < b)

/-- One in-memory column of a loaded parquet table: its name, the
canonical string form of its polars dtype, and its values. -/
structure DFColumn where
  name : String
  dtype : String
  values : List ℚ
deriving DecidableEq, Repr

/-- A loaded polars DataFrame, as the list of its columns in column
order. -/
abbrev DataFrame := List DFColumn

/-- Python `data.columns`. -/
def dfColumns (df : DataFrame) : List String :=
  df.map DFColumn.name

/-- Python `data[column_name]`; `none` models the polars column-not-found
exception. -/
def dfLookup (df : DataFrame) (cn : String) : Option DFColumn :=
  df.find? (fun col => col.name == cn)

/-- From helper_validator_methods.py `check_data_type`. -/
def check_data_type (polars_dtype waves_type : String) : Bool :=
  pyLower polars_dtype == pyLower waves_type

/-- From helper_validator_methods.py `check_column_range`: every value of
the named column lies in the interval; `none` models the raised
exception when the column does not exist. -/
def check_column_range (data_frame : DataFrame) (column_name : String)
    (min max : ℚ) (include_ : ClosedInterval) : Option Bool :=
  (dfLookup data_frame column_name).map
    (fun col => col.values.all (fun v => isBetween v min max include_))

/-- From metadata_validator.py `MinMax`. -/
structure MinMax where
  min : ℚ
  max : ℚ
deriving DecidableEq, Repr

/-- From metadata_validator.py `ColumnMetaData`. -/
structure ColumnMetaData where
  name : String
  ucd : Option String
  data_type : String
  qc : Option MinMax
  unit : Option String := Option.none
  info : Option String := Option.none
deriving DecidableEq, Repr

/-- From metadata_validator.py `Columns.columns`: the declared columns as a
name-keyed mapping (association list, first binding wins as in a dict). -/
abbrev MetaColumns := List (String × ColumnMetaData)

/-- Dict key lookup `metadata_columns[column_name]`. -/
def metaLookup (metaCols : MetaColumns) (cn : String) : Option ColumnMetaData :=
  (metaCols.find? (fun p => p.fst == cn)).map Prod.snd

/-- Key list of `metaCols` (the `metadata_columns.columns` keys). -/
def metaNames (metaCols : MetaColumns) : List String :=
  metaCols.map Prod.fst

/-- From data_and_metadata_validator.py `_compare_column_type`; `none`
models a KeyError/column-not-found (never happens at its call site). -/
def compareColumnType (column_name : String) (data : DataFrame)
    (metadata_columns : MetaColumns) : Option Status := do
  let col ← dfLookup data column_name
  let md ← metaLookup metadata_columns column_name
  if check_data_type col.dtype md.data_type then
    pure ⟨State.PASS, Option.none⟩
  else
    pure ⟨State.FAIL, some ("Invalid datatype. MAML indicates the expected type is "
      ++ md.data_type ++ " but the Parquet shows type actually is " ++ col.dtype)⟩

/-- From data_and_metadata_validator.py `_compare_column_range`; `none`
models an exception (missing key, missing qc, missing column). -/
def compareColumnRange (column_name : String) (data : DataFrame)
    (metadata_columns : MetaColumns) : Option Status := do
  let md ← metaLookup metadata_columns column_name
  let qc ← md.qc
  let is_valid ← check_column_range data column_name qc.min qc.max ClosedInterval.both
  if is_valid then
    pure ⟨State.PASS, Option.none⟩
  else
    pure ⟨State.FAIL, some ("Invalid range. Data must be between the supplied minimum "
      ++ toString qc.min ++ " and the supplied maximum " ++ toString qc.max)⟩

/-- From data_and_metadata_validator.py `DataMetadataValueReport`; the
`None` entries of the type/range slots stand for "not evaluated". -/
structure DataMetadataValueReport where
  column_name : String
  column_in_both_files : Status
  valid_column_datatypes : Option Status
  valid_column_ranges : Option Status
deriving DecidableEq, Repr

/-- Python `DataMetadataValueReport.__post_init__`: Python
`all([presence.state == PASS, opt and opt.state == PASS, ...])`, where
an absent (`None`) status is falsy, so it makes the entry invalid. -/
def DataMetadataValueReport.valid (r : DataMetadataValueReport) : Bool :=
  (r.column_in_both_files.state == State.PASS)
  && (match r.valid_column_datatypes with
      | some s => s.state == State.PASS
      | Option.none => false)
  && (match r.valid_column_ranges with
      | some s => s.state == State.PASS
      | Option.none => false)

/-- Loop body of `validate_data_and_metadata` for one column name of
the key-set union, mirroring the if/elif/elif chain of the source (each
branch appends exactly one report; a name in neither schema appends
nothing). -/
def reconcileStep (table_name : String) (data : DataFrame)
    (metadata_columns : MetaColumns) (column_name : String) :
    List DataMetadataValueReport :=
  if column_name ∈ dfColumns data ∧ column_name ∈ metaNames metadata_columns then
    let valid_range : Option Status :=
      match metaLookup metadata_columns column_name with
      | some md =>
        match md.qc with
        | some _ => compareColumnRange column_name data metadata_columns
        | Option.none => some ⟨State.PASS, Option.none⟩
      | Option.none => Option.none
    [{ column_name := column_name
       column_in_both_files := ⟨State.PASS, Option.none⟩
       valid_column_datatypes := compareColumnType column_name data metadata_columns
       valid_column_ranges := valid_range }]
  else if column_name ∈ dfColumns data ∧ column_name ∉ metaNames metadata_columns then
    [{ column_name := column_name
       column_in_both_files := ⟨State.FAIL, some (column_name ++ " found in "
         ++ table_name ++ ".parquet but not in " ++ table_name ++ ".maml")⟩
       valid_column_datatypes := Option.none
       valid_column_ranges := Option.none }]
  else if column_name ∉ dfColumns data ∧ column_name ∈ metaNames metadata_columns then
    [{ column_name := column_name
       column_in_both_files := ⟨State.FAIL, some (column_name ++ " found in "
         ++ table_name ++ ".maml but not in " ++ table_name ++ ".parquet")⟩
       valid_column_datatypes := Option.none
       valid_column_ranges := Option.none }]
  else []

/-- From data_and_metadata_validator.py `validate_data_and_metadata`:
iterate over the union of the two key sets (`set | set`, determinized
here as `dedup` of the concatenated key lists). -/
def validate_data_and_metadata (table_name : String) (data : DataFrame)
    (metadata_columns : MetaColumns) : List DataMetadataValueReport :=
  ((dfColumns data ++ metaNames metadata_columns).dedup).flatMap
    (reconcileStep table_name data metadata_columns)

/-! ### RA/Dec range checks (data_validator.py) -/

/-- From data_validator.py `_find_column`: the first column (in column
order) one of whose `_`-separated tokens equals the root name. -/
def find_column (standard_root_name : String) (data_frame : DataFrame) :
    Option String :=
  (data_frame.find?
    (fun col => (pySplitU col.name).contains standard_root_name)).map
    DFColumn.name

/-- From data_validator.py `validate_ra`. A falsy (absent or empty)
explicit column name falls back to `_find_column`; `none` models the
exception when an explicit name is not a column of the frame. -/
def validate_ra (data_frame : DataFrame) (ra_column_name : Option String) :
    Option Status :=
  let rc : Option String :=
    match ra_column_name with
    | some s => if s = "" then find_column "ra" data_frame else some s
    | Option.none => find_column "ra" data_frame
  match rc with
  | Option.none => some ⟨State.PASS, Option.none⟩
  | some c =>
    if c = "" then some ⟨State.PASS, Option.none⟩
    else
      match check_column_range data_frame c 0 360 ClosedInterval.left with
      | Option.none => Option.none
      | some true => some ⟨State.PASS, some (c ++ " in range [0, 360)")⟩
      | some false => some ⟨State.FAIL, some (c ++ " not in range [0, 360)")⟩

/-- From data_validator.py `validate_dec`. -/
def validate_dec (data_frame : DataFrame) (dec_column_name : Option String) :
    Option Status :=
  let rc : Option String :=
    match dec_column_name with
    | some s => if s = "" then find_column "dec" data_frame else some s
    | Option.none => find_column "dec" data_frame
  match rc with
  | Option.none => some ⟨State.PASS, Option.none⟩
  | some c =>
    if c = "" then some ⟨State.PASS, Option.none⟩
    else
      match check_column_range data_frame c (-90) 90 ClosedInterval.both with
      | Option.none => Option.none
      | some true => some ⟨State.PASS, some (c ++ " in range [-90, 90]")⟩
      | some false => some ⟨State.FAIL, some (c ++ " not in range [-90, 90]")⟩

/-! ### Theorems -/

/-- A similarity oracle giving ratio 91 for the one comparison the
fuzzy stage of `check_filter` makes on the input below, 0 elsewhere. -/
def simHigh : String → String → Nat :=
  fun a b => if a = "uband" && b = "ubnad" then 91 else 0

/-- Claim C1: with the filter vocabulary `[u_band]` and a similarity
ratio of 91 (> 80, the Fail threshold) between the canonical form and
the candidate, the fuzzy stage of `check_filter` returns Warning, not
Fail: the source compares against the Warning threshold 70 first, so
the more severe outcome does not win and the Fail branch is
unreachable. -/
theorem check_filter_high_ratio_gives_warning :
    check_filter [⟨"u_band", "ucd"⟩] simHigh "u_bnad" =
      ⟨State.WARNING, some "u_band"⟩ := by
  decide

/-- Claim C2: evaluating the empty name raises: `check_alphabetical_start`
indexes `name[0]`, which throws IndexError on `""`, so
`validate_column_name` does not return a report for the empty string
(for any vocabularies and any similarity oracle). -/
theorem validate_column_name_empty_raises
    (filter_words : List FilterName) (exceptions : List ExceptionWord)
    (protected_words : List ProtectedWord) (sim : String → String → Nat) :
    validate_column_name filter_words exceptions protected_words sim "" = none := by
  rfl

/-- Claim C3: with empty filter and exception vocabularies, the name
`"a-b"` has a non-empty, fully lowercase residual that is not
alphanumeric-with-underscore, yet `check_snake_case` returns Pass:
the source line `if not check_alphanumeric(...)` tests the truthiness of
a `Status` dataclass instance, which is always truthy, so the Fail
branch is unreachable. -/
theorem check_snake_case_lowercase_nonalnum_passes :
    check_snake_case [] [] "a-b" = ⟨State.PASS, none⟩ := by
  decide

/-- Claim C4 (counterexample): an entry whose presence status is Pass
and whose type-match and range-match statuses are both absent is NOT
valid: in the source, `all([.., opt and .., opt and ..])` treats an
absent (`None`) status as falsy. The claim asserts such an entry is
valid. -/
theorem report_absent_type_range_not_valid :
    DataMetadataValueReport.valid
      ⟨"c", ⟨State.PASS, none⟩, none, none⟩ = false := by
  decide

/-- Claim C4 (amended): an entry is valid iff its presence status is
Pass AND its type-match status is present and Pass AND its range-match
status is present and Pass. -/
theorem report_valid_characterization (r : DataMetadataValueReport) :
    r.valid = true ↔
      (r.column_in_both_files.state = State.PASS
        ∧ (∃ s, r.valid_column_datatypes = some s ∧ s.state = State.PASS)
        ∧ (∃ s, r.valid_column_ranges = some s ∧ s.state = State.PASS)) := by
  obtain ⟨cn, pres, dt, rng⟩ := r
  simp only [DataMetadataValueReport.valid, Bool.and_eq_true, beq_iff_eq]
  cases dt <;> cases rng <;> simp [and_assoc]

/-- Claim C5 (counterexample): for the protected entry
`right_ascension` with representations `["ra", "RA"]` and the name
`"RA"`, one representation (`"RA"`) equals the whole name, so the
claim requires Fail; the source scans representation-by-representation
and the earlier representation `"ra"` case-insensitively matches the
token `"RA"` first, returning Warning. -/
theorem check_protected_whole_name_match_can_warn :
    check_protected [⟨"right_ascension", ["ra", "RA"], "u", "deg"⟩] "RA" =
        ⟨State.WARNING, some "right_ascension"⟩
      ∧ State.WARNING ≠ State.FAIL := by
  refine ⟨by decide, by decide⟩

/-- The predicate under which one `(protected-word-name, representation)`
pair stops the `check_protected` scan: the representation equals the
whole name, or case-insensitively equals one `_`-token of it. -/
def protectedHit (name : String) (p : String × String) : Bool :=
  p.2 == name || (pySplitU name).any (fun t => pyLower p.2 == pyLower t)

/-- The inner representation loop is the first-match scan over this
pairs `(name, representation)` of this entry. -/
theorem protectedReprScan_eq_find (pwname name : String) (ws : List String) :
    protectedReprScan pwname name ws =
      ((ws.map (fun w => (pwname, w))).find? (protectedHit name)).map
        (fun p => if p.2 = name then ⟨State.FAIL, some p.1⟩
                  else ⟨State.WARNING, some p.1⟩) := by
  induction ws with
  | nil => rfl
  | cons w ws ih =>
    by_cases h1 : w = name
    · simp [protectedReprScan, List.find?_cons, protectedHit, h1]
    · by_cases h2 : ((pySplitU name).any fun t => pyLower w == pyLower t) = true
      · simp [protectedReprScan, List.find?_cons, protectedHit, h1, h2]
      · have hpred : protectedHit name (pwname, w) = false := by
          simp [protectedHit, h1, h2]
        simp only [protectedReprScan, List.map_cons, List.find?_cons, hpred,
          if_neg h1, if_neg h2]
        exact ih

/-- Claim C5 (amended): the protected-word check scans the flattened
sequence of `(entry, representation)` pairs in registration order; the
first representation that either equals the whole name (→ Fail) or
case-insensitively equals an `_`-token of the name (→ Warning)
determines the result, Fail being chosen only when that first matching
representation itself equals the whole name. In particular a later
representation equal to the whole name does not override an earlier
token match of an earlier representation. -/
theorem check_protected_scan_order (pws : List ProtectedWord) (name : String) :
    check_protected pws name =
      match (pws.flatMap
          (fun pw => pw.common_representations.map (fun w => (pw.name, w)))).find?
          (protectedHit name) with
      | none => ⟨State.PASS, none⟩
      | some p => if p.2 = name then ⟨State.FAIL, some p.1⟩
                  else ⟨State.WARNING, some p.1⟩ := by
  induction pws with
  | nil => rfl
  | cons pw rest ih =>
    simp only [check_protected, List.flatMap_cons, List.find?_append,
      protectedReprScan_eq_find]
    cases hf : (pw.common_representations.map (fun w => (pw.name, w))).find?
        (protectedHit name) with
    | some p => simp [hf]
    | none => simpa [hf] using ih

/-- The pair scanned by the fuzzy stage of `check_allowed` that stops
the scan: its similarity ratio exceeds the Warning threshold 60. -/
def bannedHit (sim : String → String → Nat) (p : String × String) : Bool :=
  60 < sim p.1 (pyLower p.2)

/-- The inner token loop of the fuzzy stage is the first-match scan
over the `(word, token)` pairs of this banned word, classified Fail above
80 and Warning otherwise. -/
theorem bannedTokenScan_eq_find (sim : String → String → Nat)
    (name na : String) (ws : List String) :
    bannedTokenScan sim name na ws =
      ((ws.map (fun w => (na, w))).find? (bannedHit sim)).map
        (fun p => if 80 < sim p.1 (pyLower p.2)
          then ⟨State.FAIL, some (name ++ " contains banned word: " ++ p.1)⟩
          else ⟨State.WARNING,
            some (name ++ " contains possible banned word: " ++ p.1)⟩) := by
  induction ws with
  | nil => rfl
  | cons w ws ih =>
    simp only [bannedTokenScan, List.map_cons, List.find?_cons, bannedHit]
    by_cases h80 : 80 < sim na (pyLower w)
    · have h60 : 60 < sim na (pyLower w) := by omega
      simp [h80, h60]
    · by_cases h60 : 60 < sim na (pyLower w)
      · simp [h80, h60]
      · simp [h80, h60, ih, bannedHit]

/-- Claim C7: when no banned word occurs literally in the name, the
fuzzy stage of `check_allowed` is resolved by the first
`(banned word, token)` pair (banned-word-major order) whose similarity
ratio strictly exceeds 60 — so a ratio of exactly 60 contributes
nothing (Pass if no pair exceeds 60), a first ratio in 61..80 yields
Warning, and a first ratio above 80 yields Fail. -/
theorem check_allowed_fuzzy_thresholds (sim : String → String → Nat)
    (name : String) (h : ∀ na ∈ NOT_ALLOWED, pyIn na name = false) :
    check_allowed sim name =
      match (NOT_ALLOWED.flatMap
          (fun na => (pySplitU name).map (fun w => (na, w)))).find?
          (bannedHit sim) with
      | none => ⟨State.PASS, none⟩
      | some p =>
        if 80 < sim p.1 (pyLower p.2)
        then ⟨State.FAIL, some (name ++ " contains banned word: " ++ p.1)⟩
        else ⟨State.WARNING,
          some (name ++ " contains possible banned word: " ++ p.1)⟩ := by
  have hfind : NOT_ALLOWED.find? (fun na => pyIn na name) = none :=
    List.find?_eq_none.mpr (by intro x hx; simp [h x hx])
  simp only [check_allowed, hfind]
  induction NOT_ALLOWED with
  | nil => rfl
  | cons na nas ih =>
    simp only [bannedFuzzyScan, List.flatMap_cons, List.find?_append,
      bannedTokenScan_eq_find]
    cases hf : ((pySplitU name).map (fun w => (na, w))).find? (bannedHit sim) with
    | some p => simp [hf]
    | none => simpa [hf] using ih

/-- Claim C7 (witness): on the name `"hello"` (no banned word occurs
literally in it), a similarity oracle answering exactly 60 for every
pair gives Pass, one answering 61 gives Warning, and one answering 81
gives Fail. -/
theorem check_allowed_fuzzy_thresholds_witness :
    check_allowed (fun _ _ => 60) "hello" = ⟨State.PASS, none⟩
    ∧ check_allowed (fun _ _ => 61) "hello" =
        ⟨State.WARNING, some "hello contains possible banned word: fred"⟩
    ∧ check_allowed (fun _ _ => 81) "hello" =
        ⟨State.FAIL, some "hello contains banned word: fred"⟩ := by
  refine ⟨?_, ?_, ?_⟩
  · rw [check_allowed_fuzzy_thresholds (fun _ _ => 60) "hello" (by decide)]
    decide
  · rw [check_allowed_fuzzy_thresholds (fun _ _ => 61) "hello" (by decide)]
    decide
  · rw [check_allowed_fuzzy_thresholds (fun _ _ => 81) "hello" (by decide)]
    decide

/-- Claim C9: if the canonical form of some filter vocabulary entry occurs
literally (case- and separator-sensitively) in the name, `check_filter`
returns Pass outright — the wrong-case, reversed-form and fuzzy stages
are never consulted, for any similarity oracle and any other entries
in the vocabulary. -/
theorem check_filter_exact_short_circuit (filter_words : List FilterName)
    (sim : String → String → Nat) (name : String) (f : FilterName)
    (hf : f ∈ filter_words) (hsub : pyIn f.name name = true) :
    check_filter filter_words sim name = ⟨State.PASS, none⟩ := by
  have hs : (filter_words.find? (fun g => pyIn g.name name)).isSome :=
    List.find?_isSome.mpr ⟨f, hf, hsub⟩
  rcases Option.isSome_iff_exists.mp hs with ⟨g, hg⟩
  simp [check_filter, hg]

/-- Claim C9 (witness): `"u_band_G_band"` contains the first filter
`u_band` literally, so the check passes even though the rest of the
name is a wrong-cased use of the second filter `g_band`. -/
theorem check_filter_exact_short_circuit_witness :
    check_filter [⟨"u_band", "x"⟩, ⟨"g_band", "y"⟩] (fun _ _ => 0)
      "u_band_G_band" = ⟨State.PASS, none⟩ :=
  check_filter_exact_short_circuit _ _ _ ⟨"u_band", "x"⟩ (by decide) (by decide)

/-- Claim C8 (counterexample): with the degenerate bounds a = b = 0
(which satisfy a ≤ b), the left-closed interval `[0, 0)` is empty, so
the lower endpoint is NOT contained — both for a single value and for
a one-value column — where the claim asserts `contains(a, a, b, LEFT)`
is true for all a ≤ b. -/
theorem left_closed_degenerate_excludes_endpoint :
    isBetween (0 : ℚ) 0 0 ClosedInterval.left = false
    ∧ check_column_range [⟨"c", "float64", [(0 : ℚ)]⟩] "c" 0 0
        ClosedInterval.left = some false := by
  exact ⟨by decide, by decide⟩

/-- Claim C8 (amended): interval containment is pure and satisfies:
`contains(v,a,b,BOTH)` iff `a ≤ v ≤ b` (all bounds); for strict bounds
`a < b`, `contains(a,a,b,LEFT)` is true; `contains(b,a,b,LEFT)` is
false; and on a column the result is true iff every value of the
column satisfies the bound. -/
theorem interval_containment_props (v a b : ℚ) (df : DataFrame)
    (cn : String) (col : DFColumn) (incl : ClosedInterval) :
    (isBetween v a b ClosedInterval.both = true ↔ a ≤ v ∧ v ≤ b)
    ∧ (a < b → isBetween a a b ClosedInterval.left = true)
    ∧ isBetween b a b ClosedInterval.left = false
    ∧ (dfLookup df cn = some col →
        (check_column_range df cn a b incl = some true ↔
          ∀ x ∈ col.values, isBetween x a b incl = true)) := by
  refine ⟨?_, ?_, ?_, ?_⟩
  · simp [isBetween]
  · intro h
    simp [isBetween, le_refl, h]
  · simp [isBetween, lt_irrefl]
  · intro h
    simp [check_column_range, h, List.all_eq_true]

/-- Claim C8 (amended, witness): the amended properties evaluated at
v = 1, a = 0, b = 2 and a one-value column. -/
theorem interval_containment_props_witness :
    isBetween (0 : ℚ) 0 2 ClosedInterval.left = true
    ∧ (check_column_range [⟨"c", "float64", [(1 : ℚ)]⟩] "c" 0 2
          ClosedInterval.both = some true ↔
        ∀ x ∈ [(1 : ℚ)], isBetween x 0 2 ClosedInterval.both = true) := by
  exact ⟨(interval_containment_props 0 0 2 [] "" ⟨"", "", []⟩
      ClosedInterval.left).2.1 (by decide),
    (interval_containment_props 1 0 2 [⟨"c", "float64", [(1 : ℚ)]⟩] "c"
      ⟨"c", "float64", [(1 : ℚ)]⟩ ClosedInterval.both).2.2.2 (by decide)⟩

/-- First-match decomposition of `List.find?`: a found element splits
the list into untouched earlier elements (all failing the predicate),
the element itself, and a tail. -/
theorem find?_first_decomp {α : Type} (p : α → Bool) :
    ∀ (l : List α) (a : α), l.find? p = some a →
      p a = true ∧ ∃ l1 l2, l = l1 ++ a :: l2 ∧ ∀ x ∈ l1, p x = false := by
  intro l
  induction l with
  | nil => intro a h; simp at h
  | cons b bs ih =>
    intro a h
    rw [List.find?_cons] at h
    cases hb : p b with
    | true =>
      rw [hb] at h
      injection h with h
      subst h
      exact ⟨hb, [], bs, rfl, by simp⟩
    | false =>
      rw [hb] at h
      obtain ⟨hpa, l1, l2, hsplit, hl1⟩ := ih a h
      subst hsplit
      refine ⟨hpa, b :: l1, l2, rfl, ?_⟩
      intro x hx
      rcases List.mem_cons.mp hx with hx | hx
      · exact hx ▸ hb
      · exact hl1 x hx

/-- Claim C10: when no column of the frame has an `_`-token equal to
"ra" (resp. "dec") and no explicit column name is supplied,
`validate_ra` (resp. `validate_dec`) returns Pass; and when
`_find_column` selects a column, it is the first column in column
order with a matching token, and it is exactly the column whose range
is checked against `[0, 360)` (resp. `[-90, 90]`). -/
theorem validate_ra_dec_column_selection (df : DataFrame) :
    ((∀ col ∈ df, ((pySplitU col.name).contains "ra") = false) →
        validate_ra df none = some ⟨State.PASS, none⟩)
    ∧ ((∀ col ∈ df, ((pySplitU col.name).contains "dec") = false) →
        validate_dec df none = some ⟨State.PASS, none⟩)
    ∧ (∀ c, find_column "ra" df = some c →
        (∃ l1 col l2, df = l1 ++ col :: l2 ∧ col.name = c
          ∧ ((pySplitU c).contains "ra") = true
          ∧ ∀ col2 ∈ l1, ((pySplitU col2.name).contains "ra") = false)
        ∧ (check_column_range df c 0 360 ClosedInterval.left = some true →
            validate_ra df none = some ⟨State.PASS, some (c ++ " in range [0, 360)")⟩)
        ∧ (check_column_range df c 0 360 ClosedInterval.left = some false →
            validate_ra df none = some ⟨State.FAIL, some (c ++ " not in range [0, 360)")⟩))
    ∧ (∀ c, find_column "dec" df = some c →
        (∃ l1 col l2, df = l1 ++ col :: l2 ∧ col.name = c
          ∧ ((pySplitU c).contains "dec") = true
          ∧ ∀ col2 ∈ l1, ((pySplitU col2.name).contains "dec") = false)
        ∧ (check_column_range df c (-90) 90 ClosedInterval.both = some true →
            validate_dec df none = some ⟨State.PASS, some (c ++ " in range [-90, 90]")⟩)
        ∧ (check_column_range df c (-90) 90 ClosedInterval.both = some false →
            validate_dec df none = some ⟨State.FAIL, some (c ++ " not in range [-90, 90]")⟩)) := by
  refine ⟨?_, ?_, ?_, ?_⟩
  · intro h
    have hfind : df.find? (fun col => decide ("ra" ∈ pySplitU col.name)) = none :=
      List.find?_eq_none.mpr (by intro x hx; simpa using h x hx)
    simp [validate_ra, find_column, hfind]
  · intro h
    have hfind : df.find? (fun col => decide ("dec" ∈ pySplitU col.name)) = none :=
      List.find?_eq_none.mpr (by intro x hx; simpa using h x hx)
    simp [validate_dec, find_column, hfind]
  · intro c hc
    obtain ⟨col, hfind, hname⟩ :=
      Option.map_eq_some'.mp (by simpa [find_column] using hc)
    obtain ⟨hp, l1, l2, hsplit, hl1⟩ := find?_first_decomp _ df col hfind
    have hcontains : ((pySplitU c).contains "ra") = true := by
      simpa [hname] using hp
    have hcne : ¬ c = "" := by
      intro he
      rw [he] at hcontains
      exact absurd hcontains (by decide)
    refine ⟨⟨l1, col, l2, hsplit, hname, hcontains, ?_⟩, ?_, ?_⟩
    · intro col2 hcol2
      simpa using hl1 col2 hcol2
    · intro hrange
      simp [validate_ra, find_column, hfind, hname, hcne, hrange]
    · intro hrange
      simp [validate_ra, find_column, hfind, hname, hcne, hrange]
  · intro c hc
    obtain ⟨col, hfind, hname⟩ :=
      Option.map_eq_some'.mp (by simpa [find_column] using hc)
    obtain ⟨hp, l1, l2, hsplit, hl1⟩ := find?_first_decomp _ df col hfind
    have hcontains : ((pySplitU c).contains "dec") = true := by
      simpa [hname] using hp
    have hcne : ¬ c = "" := by
      intro he
      rw [he] at hcontains
      exact absurd hcontains (by decide)
    refine ⟨⟨l1, col, l2, hsplit, hname, hcontains, ?_⟩, ?_, ?_⟩
    · intro col2 hcol2
      simpa using hl1 col2 hcol2
    · intro hrange
      simp [validate_dec, find_column, hfind, hname, hcne, hrange]
    · intro hrange
      simp [validate_dec, find_column, hfind, hname, hcne, hrange]

/-- Claim C10 (witness): an empty frame passes vacuously, and a frame
whose only column is named "ra" has exactly that column range-checked. -/
theorem validate_ra_dec_column_selection_witness :
    validate_ra [] none = some ⟨State.PASS, none⟩
    ∧ validate_dec [] none = some ⟨State.PASS, none⟩
    ∧ validate_ra [⟨"ra", "float64", [(10 : ℚ)]⟩] none =
        some ⟨State.PASS, some "ra in range [0, 360)"⟩ := by
  refine ⟨(validate_ra_dec_column_selection []).1 (by simp),
    (validate_ra_dec_column_selection []).2.1 (by simp),
    ((validate_ra_dec_column_selection [⟨"ra", "float64", [(10 : ℚ)]⟩]).2.2.1
      "ra" (by decide)).2.1 (by decide)⟩

/-- A name in at least one schema yields exactly one report, labelled
with that name. -/
theorem reconcileStep_names (table_name : String) (data : DataFrame)
    (metaCols : MetaColumns) (cn : String)
    (h : cn ∈ dfColumns data ∨ cn ∈ metaNames metaCols) :
    (reconcileStep table_name data metaCols cn).map
      DataMetadataValueReport.column_name = [cn] := by
  by_cases h1 : cn ∈ dfColumns data
  · by_cases h2 : cn ∈ metaNames metaCols
    · simp [reconcileStep, h1, h2]
    · simp [reconcileStep, h1, h2]
  · have h2 : cn ∈ metaNames metaCols := h.resolve_left h1
    simp [reconcileStep, h1, h2]

/-- The reconciliation loop produces the reports in key order, one per
key of the deduplicated union list. -/
theorem validate_names (table_name : String) (data : DataFrame)
    (metaCols : MetaColumns) :
    (validate_data_and_metadata table_name data metaCols).map
        DataMetadataValueReport.column_name
      = (dfColumns data ++ metaNames metaCols).dedup := by
  unfold validate_data_and_metadata
  have key : ∀ l : List String,
      (∀ cn ∈ l, cn ∈ dfColumns data ∨ cn ∈ metaNames metaCols) →
      ((l.flatMap (reconcileStep table_name data metaCols)).map
        DataMetadataValueReport.column_name) = l := by
    intro l
    induction l with
    | nil => intro _; rfl
    | cons c cs ih =>
      intro h
      have hc := h c (List.mem_cons_self c cs)
      simp [List.flatMap_cons, List.map_append,
        reconcileStep_names table_name data metaCols c hc,
        ih (fun x hx => h x (List.mem_cons_of_mem c hx))]
  refine key _ ?_
  intro cn hcn
  simpa using List.mem_dedup.mp hcn

/-- Claim C6: reconciliation of a declared schema (the metadata
columns) with an observed schema (the data frame columns) produces
exactly one entry per name in the union of the two key sets — hence
`|keys(D) ∪ keys(O)|` entries in total — and every entry whose name
lies in exactly one of the two schemas has presence status Fail with
an explanatory message and absent (not evaluated) type-match and
range-match statuses. -/
theorem validate_data_and_metadata_coverage (table_name : String)
    (data : DataFrame) (metaCols : MetaColumns) :
    (validate_data_and_metadata table_name data metaCols).map
        DataMetadataValueReport.column_name
      = (dfColumns data ++ metaNames metaCols).dedup
    ∧ (validate_data_and_metadata table_name data metaCols).length
      = ((dfColumns data).toFinset ∪ (metaNames metaCols).toFinset).card
    ∧ ∀ r ∈ validate_data_and_metadata table_name data metaCols,
        ((r.column_name ∈ dfColumns data ∧ r.column_name ∉ metaNames metaCols)
          ∨ (r.column_name ∉ dfColumns data ∧ r.column_name ∈ metaNames metaCols)) →
        r.column_in_both_files.state = State.FAIL
        ∧ r.column_in_both_files.message ≠ none
        ∧ r.valid_column_datatypes = none
        ∧ r.valid_column_ranges = none := by
  refine ⟨validate_names table_name data metaCols, ?_, ?_⟩
  · have hlen : (validate_data_and_metadata table_name data metaCols).length
        = (dfColumns data ++ metaNames metaCols).dedup.length := by
      have := congrArg List.length (validate_names table_name data metaCols)
      simpa using this
    have hfin : (dfColumns data ++ metaNames metaCols).dedup.toFinset
        = (dfColumns data).toFinset ∪ (metaNames metaCols).toFinset := by
      ext a
      simp [List.mem_dedup]
    rw [hlen, ← hfin,
      List.toFinset_card_of_nodup (List.nodup_dedup _)]
  · intro r hr hxor
    obtain ⟨cn, hcn, hrstep⟩ := List.mem_flatMap.mp hr
    by_cases h1 : cn ∈ dfColumns data ∧ cn ∈ metaNames metaCols
    · rw [reconcileStep, if_pos h1] at hrstep
      have hname : r.column_name = cn := by
        rcases List.mem_singleton.mp hrstep with rfl
        rfl
      rw [hname] at hxor
      rcases hxor with ⟨_, hnm⟩ | ⟨hnd, _⟩
      · exact absurd h1.2 hnm
      · exact absurd h1.1 hnd
    · rw [reconcileStep, if_neg h1] at hrstep
      by_cases h2 : cn ∈ dfColumns data ∧ cn ∉ metaNames metaCols
      · rw [if_pos h2] at hrstep
        rcases List.mem_singleton.mp hrstep with rfl
        refine ⟨rfl, by simp, rfl, rfl⟩
      · by_cases h3 : cn ∉ dfColumns data ∧ cn ∈ metaNames metaCols
        · rw [if_neg h2, if_pos h3] at hrstep
          rcases List.mem_singleton.mp hrstep with rfl
          refine ⟨rfl, by simp, rfl, rfl⟩
        · rw [if_neg h2, if_neg h3] at hrstep
          exact absurd hrstep (List.not_mem_nil r)

/-- Claim C6 (witness): one data-only column "a" and one
metadata-only column "b" give two entries, and the data-only entry has
presence Fail with absent type/range statuses. -/
theorem validate_data_and_metadata_coverage_witness :
    (validate_data_and_metadata "t" [⟨"a", "int64", []⟩]
        [("b", ⟨"b", none, "int64", none, none, none⟩)]).length = 2
    ∧ (⟨"a", ⟨State.FAIL, some "a found in t.parquet but not in t.maml"⟩,
          none, none⟩ : DataMetadataValueReport).column_in_both_files.state
        = State.FAIL := by
  constructor
  · have h := (validate_data_and_metadata_coverage "t" [⟨"a", "int64", []⟩]
      [("b", ⟨"b", none, "int64", none, none, none⟩)]).2.1
    rw [h]
    decide
  · have h := (validate_data_and_metadata_coverage "t" [⟨"a", "int64", []⟩]
      [("b", ⟨"b", none, "int64", none, none, none⟩)]).2.2
      ⟨"a", ⟨State.FAIL, some "a found in t.parquet but not in t.maml"⟩,
        none, none⟩ (by decide) (by decide)
    exact h.1

end RipValidator
